import Mathlib

/-
  Verification development for the power-factor calculator
  (src/powerFactorCalculator.js).

  The calculator keeps four interdependent fields (kw, kva, kvar, pf).
  The function calculatePowerFactor validates the raw field texts, locks a
  source pair on the first successful resolution, dispatches one of six
  closed-form cases keyed by the JS lexicographic sort of the field id
  strings, and writes the two derived values back (snapping magnitudes
  below 1e-9 to 0 and formatting to three decimals).

  Modelling conventions:
  - JS numbers are modelled as real numbers; the guards in the code reject
    every combination that would produce NaN or Infinity before it is used,
    and those checks are kept (as Option values checked just as the code
    checks isNaN/isFinite).
  - A raw field text is abstracted by exactly what the code observes about
    it: empty after trim, unparseable (parseFloat yields NaN), or parsing
    to a number.  Placeholder text is presentation-only and not modelled.
  - toFixed(3) is modelled as rounding to the nearest multiple of 1/1000.
-/

namespace PFCalc

open scoped Classical

/-- The four field identifiers, in the order of the inputs array
[kwInput, kvaInput, kvarInput, pfInput]. -/
inductive FieldId where
  | kw
  | kva
  | kvar
  | pf
deriving DecidableEq

/-- What calculatePowerFactor observes about one raw field text:
value.trim() is empty, parseFloat yields NaN, or it parses to a number. -/
inductive FieldText where
  | empty
  | invalid
  | num (x : ℝ)

/-- Outcome of validating one raw field text (spec 4.1 taxonomy). -/
inductive ValidationResult where
  | empty
  | invalidFormat (id : FieldId)
  | outOfDomain (id : FieldId)
  | valid (x : ℝ)

/-- Per-field validation, from the initial-mode loop of
calculatePowerFactor: skip empty text, reject unparseable text, reject a
negative power magnitude or a power factor outside [0,1], otherwise accept
the parsed number.  It takes no information about which fields are
sources. -/
noncomputable def validateField (id : FieldId) (t : FieldText) : ValidationResult :=
  match t with
  | .empty => .empty
  | .invalid => .invalidFormat id
  | .num x =>
      if (id = .kw ∨ id = .kva ∨ id = .kvar) ∧ x < 0 then .outOfDomain id
      else if id = .pf ∧ (x < 0 ∨ 1 < x) then .outOfDomain id
      else .valid x

/-- The domain constraint a numeric value can violate, per field. -/
def outOfDomainVal (id : FieldId) (x : ℝ) : Prop :=
  ((id = .kw ∨ id = .kva ∨ id = .kvar) ∧ x < 0) ∨ (id = .pf ∧ (x < 0 ∨ 1 < x))

/-- The results object: one value per field. -/
structure Results where
  kw : ℝ
  kva : ℝ
  kvar : ℝ
  pf : ℝ

def resultGet (r : Results) : FieldId → ℝ
  | .kw => r.kw
  | .kva => r.kva
  | .kvar => r.kvar
  | .pf => r.pf

/-- Case observed inputs kva and kw (JS pair key kva-kw).  pf is computed as
an Option: none stands for the NaN that the isNaN check then turns into an
error, exactly as in the source. -/
noncomputable def resolveKvaKw (kva kw : ℝ) : Except String Results :=
  if kva = 0 ∧ kw ≠ 0 then .error "kVA cannot be 0 if kW is non-zero."
  else if |kw| > |kva| then .error "Absolute kW cannot be greater than absolute kVA."
  else
    let pfOpt : Option ℝ := if kva = 0 then (if kw = 0 then some 1 else none) else some (kw / kva)
    let kvar : ℝ := if kva * kva < kw * kw then 0 else Real.sqrt (kva * kva - kw * kw)
    match pfOpt with
    | none => .error "Calculation resulted in undefined PF."
    | some pf => .ok ⟨kw, kva, kvar, pf⟩

/-- Case observed inputs kvar and kw (JS pair key kvar-kw). -/
noncomputable def resolveKvarKw (kvar kw : ℝ) : Except String Results :=
  let kva : ℝ := Real.sqrt (kw * kw + kvar * kvar)
  let pfOpt : Option ℝ := if kva = 0 then (if kw = 0 then some 1 else none) else some (kw / kva)
  match pfOpt with
  | none => .error "Calculation resulted in undefined PF."
  | some pf => .ok ⟨kw, kva, kvar, pf⟩

/-- Case observed inputs kw and pf (JS pair key kw-pf).  kva is an Option:
none stands for the Infinity that the isFinite check then turns into an
error (unreachable, because pf = 0 with kw nonzero was already rejected). -/
noncomputable def resolveKwPf (kw pf : ℝ) : Except String Results :=
  if pf = 0 ∧ kw ≠ 0 then .error "PF cannot be 0 if kW is non-zero."
  else if pf < 0 ∨ 1 < pf then .error "PF must be between 0 and 1."
  else
    let kvaOpt : Option ℝ := if pf = 0 then (if kw = 0 then some 0 else none) else some (kw / pf)
    match kvaOpt with
    | none => .error "kVA is infinite (PF=0 with non-zero kW)."
    | some kva =>
        let kvar : ℝ := if kva * kva < kw * kw then 0 else Real.sqrt (kva * kva - kw * kw)
        .ok ⟨kw, kva, kvar, pf⟩

/-- Case observed inputs kva and kvar (JS pair key kva-kvar). -/
noncomputable def resolveKvaKvar (kva kvar : ℝ) : Except String Results :=
  if |kvar| > |kva| then .error "Absolute kVAR cannot be greater than absolute kVA."
  else
    let kw : ℝ := if kva * kva < kvar * kvar then 0 else Real.sqrt (kva * kva - kvar * kvar)
    let pfOpt : Option ℝ := if kva = 0 then (if kw = 0 then some 1 else none) else some (kw / kva)
    match pfOpt with
    | none => .error "Calculation resulted in undefined PF."
    | some pf => .ok ⟨kw, kva, kvar, pf⟩

/-- Case observed inputs kva and pf (JS pair key kva-pf). -/
noncomputable def resolveKvaPf (kva pf : ℝ) : Except String Results :=
  if pf < 0 ∨ 1 < pf then .error "PF must be between 0 and 1."
  else
    let kw : ℝ := kva * pf
    let kvar : ℝ := if kva * kva < kw * kw then 0 else Real.sqrt (kva * kva - kw * kw)
    .ok ⟨kw, kva, kvar, pf⟩

/-- Case observed inputs kvar and pf (JS pair key kvar-pf), with its chain
of special cases and the two 1e-9 threshold branches. -/
noncomputable def resolveKvarPf (kvar pf : ℝ) : Except String Results :=
  if pf < 0 ∨ 1 < pf then .error "PF must be between 0 and 1."
  else if pf = 1 ∧ kvar ≠ 0 then .error "PF cannot be 1 if kVAR is non-zero."
  else if pf = 0 ∧ kvar = 0 then .ok ⟨0, 0, kvar, pf⟩
  else if pf = 1 then
    .error "Cannot calculate from kVAR and PF=1. Please provide kW or kVA instead."
  else if pf = 0 then .ok ⟨0, |kvar|, kvar, pf⟩
  else
    let angle : ℝ := Real.arccos pf
    let kw : ℝ := if |pf| < 1 / 10 ^ 9 then 0 else kvar / Real.tan angle
    let kva : ℝ := if |pf - 1| < 1 / 10 ^ 9 then |kw| else kvar / Real.sin angle
    .ok ⟨kw, kva, kvar, pf⟩

/-- Rank of each field id string under the default lexicographic sort that
Object.keys(currentValidInputs).sort() performs:
kva is less than kvar is less than kw is less than pf. -/
def jsRank : FieldId → ℕ
  | .kva => 0
  | .kvar => 1
  | .kw => 2
  | .pf => 3

/-- Dispatch on the sorted pair key, from the switch in
calculatePowerFactor.  A list that does not have exactly two entries hits
the length failsafe; a pair that is not one of the six cases hits the
default branch. -/
noncomputable def resolvePair (entries : List (FieldId × ℝ)) : Except String Results :=
  match entries with
  | [e1, e2] =>
      let a := if jsRank e1.1 ≤ jsRank e2.1 then e1 else e2
      let b := if jsRank e1.1 ≤ jsRank e2.1 then e2 else e1
      match a.1, b.1 with
      | .kva, .kw => resolveKvaKw a.2 b.2
      | .kvar, .kw => resolveKvarKw a.2 b.2
      | .kw, .pf => resolveKwPf a.2 b.2
      | .kva, .kvar => resolveKvaKvar a.2 b.2
      | .kva, .pf => resolveKvaPf a.2 b.2
      | .kvar, .pf => resolveKvarPf a.2 b.2
      | _, _ => .error "Invalid input pair detected."
  | _ => .error "Internal error: Expected 2 valid inputs."

/-- Snap a magnitude below 1e-9 to exactly 0, as the output-update loop
does just before writing a derived value. -/
noncomputable def snapTiny (x : ℝ) : ℝ := if |x| < 1 / 10 ^ 9 then 0 else x

/-- outputValue.toFixed(3): the displayed text re-parses to the value
rounded to the nearest multiple of 1/1000. -/
noncomputable def toFixed3 (x : ℝ) : ℝ := ((round (x * 1000) : ℤ) : ℝ) / 1000

/-- The field text written to a derived field on success: the result value
snapped, then formatted to three decimals. -/
noncomputable def displayValue (x : ℝ) : FieldText := .num (toFixed3 (snapTiny x))

/-- State of one calculator panel: the four field texts, the read-only
flags, the status line, and the closure variables initialCalculationDone
and sourceFieldIds of init. -/
structure CalcState where
  values : FieldId → FieldText
  readOnly : FieldId → Bool
  status : String
  initialCalculationDone : Bool
  sourceFieldIds : List FieldId

/-- The inputs array order kw, kva, kvar, pf. -/
def allFields : List FieldId := [.kw, .kva, .kvar, .pf]

/-- id.toUpperCase() for the status messages. -/
def upperName : FieldId → String
  | .kw => "KW"
  | .kva => "KVA"
  | .kvar => "KVAR"
  | .pf => "PF"

/-- The clearing rule of resetToInitialState for one field: a field that is
read-only, or whose nonempty text is unparseable, is emptied; any other
field keeps its text. -/
def clearedOnReset (ro : Bool) : FieldText → FieldText
  | .empty => .empty
  | .invalid => .empty
  | .num x => if ro then .empty else .num x

/-- resetToInitialState: drop the lock, forget the sources, clear
calculated or unparseable texts, and make every field editable.  The
status line is deliberately left alone. -/
def resetToInitialState (s : CalcState) : CalcState :=
  { s with
    initialCalculationDone := false
    sourceFieldIds := []
    values := fun id => clearedOnReset (s.readOnly id) (s.values id)
    readOnly := fun _ => false }

/-- One iteration of the recalculation-mode forEach over sourceFieldIds.
The accumulator carries the (mutated) state, proceedRecalc, and
sourceValues.  The checks run on every iteration; any failing check
overwrites the status and resets the state, and once proceedRecalc is
false no further value is recorded (the return inside the forEach callback
only skips to the next id). -/
noncomputable def recalcCheck (acc : CalcState × Bool × List (FieldId × ℝ)) (id : FieldId) :
    CalcState × Bool × List (FieldId × ℝ) :=
  let s := acc.1
  let proceed := acc.2.1
  let vals := acc.2.2
  match s.values id with
  | .empty =>
      (resetToInitialState
        { s with status := "Please provide a valid number for " ++ upperName id ++ "." },
       false, vals)
  | .invalid =>
      (resetToInitialState
        { s with status := "Please provide a valid number for " ++ upperName id ++ "." },
       false, vals)
  | .num v =>
      if (id = .kw ∨ id = .kva ∨ id = .kvar) ∧ v < 0 then
        (resetToInitialState
          { s with status := "Value for " ++ upperName id ++ " cannot be negative." },
         false, vals)
      else if id = .pf ∧ (v < 0 ∨ 1 < v) then
        (resetToInitialState
          { s with status := "Power Factor (PF) must be between 0 and 1." },
         false, vals)
      else if proceed then (s, proceed, vals ++ [(id, v)])
      else (resetToInitialState s, false, vals)

/-- One iteration of the initial-mode forEach over all inputs.  The
accumulator carries the state, hasInvalidFormat, and
potentialValidInputs (whose length is validCount). -/
noncomputable def initialCheck (acc : CalcState × Bool × List (FieldId × ℝ)) (id : FieldId) :
    CalcState × Bool × List (FieldId × ℝ) :=
  let s := acc.1
  let hasInvalid := acc.2.1
  let vals := acc.2.2
  match validateField id (s.values id) with
  | .empty => (s, hasInvalid, vals)
  | .invalidFormat i =>
      ({ s with status := "Invalid number entered for " ++ upperName i ++ "." }, true, vals)
  | .outOfDomain i =>
      if i = .pf then
        ({ s with status := "Power Factor (PF) must be between 0 and 1." }, true, vals)
      else
        ({ s with status := "Value for " ++ upperName i ++ " cannot be negative." }, true, vals)
  | .valid v => (s, hasInvalid, vals ++ [(id, v)])

/-- The output-update loop over targetFieldIds: write the snapped,
3-decimal display text and mark the field read-only.  (The isNaN branch of
the source is unreachable on the success path: every case of the switch
either throws or assigns a number to all four results.) -/
noncomputable def applyResults (s : CalcState) (targets : List FieldId) (r : Results) :
    CalcState :=
  targets.foldl
    (fun s id =>
      { s with
        values := Function.update s.values id (displayValue (resultGet r id))
        readOnly := Function.update s.readOnly id true })
    s

/-- The loop that keeps the source fields editable after a successful
calculation. -/
noncomputable def markSourcesEditable (s : CalcState) (ids : List FieldId) : CalcState :=
  ids.foldl (fun s id => { s with readOnly := Function.update s.readOnly id false }) s

/-- The common calculation tail: dispatch the pair, and on success update
the targets, re-enable the sources and set initialCalculationDone; on a
calculation error surface the message and reset. -/
noncomputable def finishCalc (s : CalcState) (valid : List (FieldId × ℝ))
    (targets : List FieldId) : CalcState :=
  match resolvePair valid with
  | .error msg => resetToInitialState { s with status := "Calculation Error: " ++ msg }
  | .ok r =>
      let s1 := applyResults s targets r
      let s2 := markSourcesEditable s1 s1.sourceFieldIds
      { s2 with initialCalculationDone := true }

/-- The body of calculatePowerFactor after clearStatus. -/
noncomputable def calcCore (s : CalcState) : CalcState :=
  if s.initialCalculationDone then
    let res := s.sourceFieldIds.foldl recalcCheck (s, true, [])
    if res.2.1 = false then res.1
    else finishCalc res.1 res.2.2 (allFields.filter (fun id => !(s.sourceFieldIds.contains id)))
  else
    let res := allFields.foldl initialCheck (s, false, [])
    let s1 := res.1
    if res.2.1 = true then resetToInitialState s1
    else if res.2.2.length ≠ 2 then
      let s2 :=
        if 2 < res.2.2.length then { s1 with status := "Please provide exactly two values." }
        else if res.2.2.length = 1 then { s1 with status := "Please provide one more value." }
        else { s1 with status := "" }
      resetToInitialState s2
    else
      let sources := res.2.2.map Prod.fst
      finishCalc { s1 with sourceFieldIds := sources } res.2.2
        (allFields.filter (fun id => !(sources.contains id)))

/-- calculatePowerFactor: clearStatus, then the mode-dependent body. -/
noncomputable def calculatePowerFactor (s : CalcState) : CalcState :=
  calcCore { s with status := "" }

/-- A user edit replaces one field text. -/
def applyEdit (s : CalcState) (e : FieldId × FieldText) : CalcState :=
  { s with values := Function.update s.values e.1 e.2 }

/-- Per-keystroke schedule: recompute after every edit. -/
noncomputable def runPerKeystroke (s : CalcState) (edits : List (FieldId × FieldText)) :
    CalcState :=
  edits.foldl (fun s e => calculatePowerFactor (applyEdit s e)) s

/-- Debounced schedule: apply the whole burst of edits, then recompute
once after the quiet window. -/
noncomputable def runDebounced (s : CalcState) (edits : List (FieldId × FieldText)) :
    CalcState :=
  calculatePowerFactor (edits.foldl applyEdit s)

/-- The pristine panel: all fields empty and editable, no lock. -/
def initialState : CalcState :=
  { values := fun _ => .empty
    readOnly := fun _ => false
    status := ""
    initialCalculationDone := false
    sourceFieldIds := [] }

@[simp] lemma kw_ne_kva : FieldId.kw ≠ FieldId.kva := by decide

@[simp] lemma kw_ne_kvar : FieldId.kw ≠ FieldId.kvar := by decide

@[simp] lemma kw_ne_pf : FieldId.kw ≠ FieldId.pf := by decide

@[simp] lemma kva_ne_kw : FieldId.kva ≠ FieldId.kw := by decide

@[simp] lemma kva_ne_kvar : FieldId.kva ≠ FieldId.kvar := by decide

@[simp] lemma kva_ne_pf : FieldId.kva ≠ FieldId.pf := by decide

@[simp] lemma kvar_ne_kw : FieldId.kvar ≠ FieldId.kw := by decide

@[simp] lemma kvar_ne_kva : FieldId.kvar ≠ FieldId.kva := by decide

@[simp] lemma kvar_ne_pf : FieldId.kvar ≠ FieldId.pf := by decide

@[simp] lemma pf_ne_kw : FieldId.pf ≠ FieldId.kw := by decide

@[simp] lemma pf_ne_kva : FieldId.pf ≠ FieldId.kva := by decide

@[simp] lemma pf_ne_kvar : FieldId.pf ≠ FieldId.kvar := by decide

lemma toFixed3_eq_self (x : ℝ) (n : ℤ) (h : x * 1000 = (n : ℝ)) : toFixed3 x = x := by
  unfold toFixed3
  rw [h, round_intCast]
  field_simp
  linarith [h]

lemma sqrt160000 : Real.sqrt 160000 = 400 := by
  rw [show (160000 : ℝ) = 400 * 400 by norm_num,
    Real.sqrt_mul_self (by norm_num : (0 : ℝ) ≤ 400)]

lemma sqrt250000 : Real.sqrt 250000 = 500 := by
  rw [show (250000 : ℝ) = 500 * 500 by norm_num,
    Real.sqrt_mul_self (by norm_num : (0 : ℝ) ≤ 500)]

lemma resolveKvaKw_500_300 : resolveKvaKw 500 300 = .ok ⟨300, 500, 400, 3 / 5⟩ := by
  unfold resolveKvaKw
  norm_num [abs_of_nonneg, sqrt160000]

lemma resolvePair_kw300_kva500 :
    resolvePair [(.kw, 300), (.kva, 500)] = .ok ⟨300, 500, 400, 3 / 5⟩ := by
  unfold resolvePair
  norm_num [jsRank, resolveKvaKw_500_300]

lemma snapTiny_of_not_tiny (x : ℝ) (h : ¬ |x| < 1 / 10 ^ 9) : snapTiny x = x := by
  unfold snapTiny
  exact if_neg h

lemma snapTiny_400 : snapTiny 400 = 400 := by
  apply snapTiny_of_not_tiny
  rw [abs_of_nonneg (by norm_num : (0 : ℝ) ≤ 400)]
  norm_num

lemma snapTiny_0 : snapTiny 0 = 0 := by
  unfold snapTiny
  rw [if_pos]
  rw [abs_of_nonneg (by norm_num : (0 : ℝ) ≤ 0)]
  norm_num

lemma snapTiny_1 : snapTiny 1 = 1 := by
  apply snapTiny_of_not_tiny
  rw [abs_of_nonneg (by norm_num : (0 : ℝ) ≤ 1)]
  norm_num

lemma snapTiny_35 : snapTiny (3 / 5) = 3 / 5 := by
  apply snapTiny_of_not_tiny
  rw [abs_of_nonneg (by norm_num : (0 : ℝ) ≤ 3 / 5)]
  norm_num

lemma toFixed3_0 : toFixed3 0 = 0 := toFixed3_eq_self 0 0 (by norm_num)

lemma toFixed3_1 : toFixed3 1 = 1 := toFixed3_eq_self 1 1000 (by norm_num)

lemma toFixed3_400 : toFixed3 400 = 400 := toFixed3_eq_self 400 400000 (by norm_num)

lemma toFixed3_35 : toFixed3 (3 / 5) = 3 / 5 := toFixed3_eq_self (3 / 5) 600 (by norm_num)

lemma validateField_empty (id : FieldId) : validateField id .empty = .empty := rfl

lemma validateField_invalid (id : FieldId) : validateField id .invalid = .invalidFormat id :=
  rfl

lemma validateField_num_ood (id : FieldId) (x : ℝ) (h : outOfDomainVal id x) :
    validateField id (.num x) = .outOfDomain id := by
  rcases h with h | h
  · simp [validateField, h]
  · rcases h with ⟨h1, h2⟩
    subst h1
    simp [validateField, h2]

lemma validateField_num_ok (id : FieldId) (x : ℝ) (h : ¬ outOfDomainVal id x) :
    validateField id (.num x) = .valid x := by
  unfold outOfDomainVal at h
  push_neg at h
  have h1 : ¬ ((id = FieldId.kw ∨ id = FieldId.kva ∨ id = FieldId.kvar) ∧ x < 0) := by
    rintro ⟨hA, hx⟩
    exact absurd hx (not_lt.2 (h.1 hA))
  have h2 : ¬ (id = FieldId.pf ∧ (x < 0 ∨ 1 < x)) := by
    rintro ⟨hpf, hx⟩
    rcases h.2 hpf with ⟨h0, hle⟩
    rcases hx with hx | hx
    · linarith
    · linarith
  simp only [validateField]
  rw [if_neg h1, if_neg h2]

lemma clearedOnReset_false_of_not_invalid (t : FieldText) (h : t ≠ .invalid) :
    clearedOnReset false t = t := by
  cases t with
  | empty => rfl
  | invalid => exact absurd rfl h
  | num x => rfl

lemma clearedOnReset_idem (ro : Bool) (t : FieldText) :
    clearedOnReset false (clearedOnReset ro t) = clearedOnReset ro t := by
  cases t with
  | empty => rfl
  | invalid => rfl
  | num x => cases ro <;> simp [clearedOnReset]

@[simp] lemma resetToInitialState_status (s : CalcState) :
    (resetToInitialState s).status = s.status := rfl

@[simp] lemma resetToInitialState_done (s : CalcState) :
    (resetToInitialState s).initialCalculationDone = false := rfl

@[simp] lemma resetToInitialState_sources (s : CalcState) :
    (resetToInitialState s).sourceFieldIds = [] := rfl

@[simp] lemma resetToInitialState_readOnly (s : CalcState) (id : FieldId) :
    (resetToInitialState s).readOnly id = false := rfl

@[simp] lemma resetToInitialState_values (s : CalcState) (id : FieldId) :
    (resetToInitialState s).values id = clearedOnReset (s.readOnly id) (s.values id) := rfl

lemma applyResults_status (targets : List FieldId) (s : CalcState) (r : Results) :
    (applyResults s targets r).status = s.status := by
  induction targets generalizing s with
  | nil => rfl
  | cons a l ih => simpa [applyResults] using ih _

lemma applyResults_done (targets : List FieldId) (s : CalcState) (r : Results) :
    (applyResults s targets r).initialCalculationDone = s.initialCalculationDone := by
  induction targets generalizing s with
  | nil => rfl
  | cons a l ih => simpa [applyResults] using ih _

lemma applyResults_sources (targets : List FieldId) (s : CalcState) (r : Results) :
    (applyResults s targets r).sourceFieldIds = s.sourceFieldIds := by
  induction targets generalizing s with
  | nil => rfl
  | cons a l ih => simpa [applyResults] using ih _

lemma markSourcesEditable_values (ids : List FieldId) (s : CalcState) :
    (markSourcesEditable s ids).values = s.values := by
  induction ids generalizing s with
  | nil => rfl
  | cons a l ih => simpa [markSourcesEditable] using ih _

lemma markSourcesEditable_status (ids : List FieldId) (s : CalcState) :
    (markSourcesEditable s ids).status = s.status := by
  induction ids generalizing s with
  | nil => rfl
  | cons a l ih => simpa [markSourcesEditable] using ih _

lemma markSourcesEditable_done (ids : List FieldId) (s : CalcState) :
    (markSourcesEditable s ids).initialCalculationDone = s.initialCalculationDone := by
  induction ids generalizing s with
  | nil => rfl
  | cons a l ih => simpa [markSourcesEditable] using ih _

lemma markSourcesEditable_sources (ids : List FieldId) (s : CalcState) :
    (markSourcesEditable s ids).sourceFieldIds = s.sourceFieldIds := by
  induction ids generalizing s with
  | nil => rfl
  | cons a l ih => simpa [markSourcesEditable] using ih _

lemma finishCalc_error (s : CalcState) (valid : List (FieldId × ℝ)) (targets : List FieldId)
    (msg : String) (h : resolvePair valid = .error msg) :
    finishCalc s valid targets =
      resetToInitialState { s with status := "Calculation Error: " ++ msg } := by
  unfold finishCalc
  rw [h]

lemma finishCalc_ok_done (s : CalcState) (valid : List (FieldId × ℝ)) (targets : List FieldId)
    (r : Results) (h : resolvePair valid = .ok r) :
    (finishCalc s valid targets).initialCalculationDone = true := by
  unfold finishCalc
  rw [h]

lemma finishCalc_ok_sources (s : CalcState) (valid : List (FieldId × ℝ))
    (targets : List FieldId) (r : Results) (h : resolvePair valid = .ok r) :
    (finishCalc s valid targets).sourceFieldIds = s.sourceFieldIds := by
  unfold finishCalc
  rw [h]
  simp [markSourcesEditable_sources, applyResults_sources]

lemma finishCalc_done_of_fail (s : CalcState) (valid : List (FieldId × ℝ))
    (targets : List FieldId) (h : (finishCalc s valid targets).initialCalculationDone = false) :
    ∃ msg, resolvePair valid = .error msg := by
  cases hr : resolvePair valid with
  | error msg => exact ⟨msg, rfl⟩
  | ok r => rw [finishCalc_ok_done s valid targets r hr] at h; exact absurd h (by simp)

/-- The shape every reset during a recompute of state s leaves behind: lock
dropped, sources forgotten, everything editable, and each field text equal
to its original text run through the clearing rule. -/
def ResetShape (s t : CalcState) : Prop :=
  t.initialCalculationDone = false ∧ t.sourceFieldIds = [] ∧
    (∀ id, t.readOnly id = false) ∧
    (∀ id, t.values id = clearedOnReset (s.readOnly id) (s.values id))

lemma ResetShape_of_same (s u : CalcState) (hv : ∀ id, u.values id = s.values id)
    (hr : ∀ id, u.readOnly id = s.readOnly id) :
    ResetShape s (resetToInitialState u) := by
  refine ⟨rfl, rfl, fun id => rfl, fun id => ?_⟩
  rw [resetToInitialState_values, hv id, hr id]

lemma ResetShape_of_shape (s t u : CalcState) (h : ResetShape s t)
    (hv : ∀ id, u.values id = t.values id) (hr : ∀ id, u.readOnly id = t.readOnly id) :
    ResetShape s (resetToInitialState u) := by
  refine ⟨rfl, rfl, fun id => rfl, fun id => ?_⟩
  rw [resetToInitialState_values, hv id, hr id, h.2.2.1 id, h.2.2.2 id, clearedOnReset_idem]

/-- One recalculation-mode check starting from an untouched state: either
the check passes and the state stays untouched with the value recorded, or
it fails and the state is reset. -/
lemma recalcCheck_good (s : CalcState) (vals : List (FieldId × ℝ)) (id : FieldId) :
    ((recalcCheck (s, true, vals) id).1 = s ∧ (recalcCheck (s, true, vals) id).2.1 = true) ∨
      ((recalcCheck (s, true, vals) id).2.1 = false ∧
        ResetShape s (recalcCheck (s, true, vals) id).1) := by
  cases hv : s.values id with
  | empty =>
      right
      simp only [recalcCheck, hv]
      exact ⟨by trivial, ResetShape_of_same s _ (fun j => rfl) (fun j => rfl)⟩
  | invalid =>
      right
      simp only [recalcCheck, hv]
      exact ⟨by trivial, ResetShape_of_same s _ (fun j => rfl) (fun j => rfl)⟩
  | num v =>
      simp only [recalcCheck, hv]
      split_ifs with h1 h2
      · exact Or.inr ⟨by trivial, ResetShape_of_same s _ (fun j => rfl) (fun j => rfl)⟩
      · exact Or.inr ⟨by trivial, ResetShape_of_same s _ (fun j => rfl) (fun j => rfl)⟩
      · exact Or.inl ⟨by trivial, by trivial⟩

/-- One recalculation-mode check after an earlier failure: the state stays
a reset of the original. -/
lemma recalcCheck_bad (s t : CalcState) (vals : List (FieldId × ℝ)) (id : FieldId)
    (hshape : ResetShape s t) :
    (recalcCheck (t, false, vals) id).2.1 = false ∧
      ResetShape s (recalcCheck (t, false, vals) id).1 := by
  cases hv : t.values id with
  | empty =>
      simp only [recalcCheck, hv]
      exact ⟨by trivial, ResetShape_of_shape s t _ hshape (fun j => rfl) (fun j => rfl)⟩
  | invalid =>
      simp only [recalcCheck, hv]
      exact ⟨by trivial, ResetShape_of_shape s t _ hshape (fun j => rfl) (fun j => rfl)⟩
  | num v =>
      simp only [recalcCheck, hv]
      split_ifs with h1 h2 h3
      · exact ⟨by trivial, ResetShape_of_shape s t _ hshape (fun j => rfl) (fun j => rfl)⟩
      · exact ⟨by trivial, ResetShape_of_shape s t _ hshape (fun j => rfl) (fun j => rfl)⟩
      · simp at h3
      · exact ⟨by trivial, ResetShape_of_shape s t t hshape (fun j => rfl) (fun j => rfl)⟩

/-- Invariant of the recalculation-mode forEach: either no check has
failed yet and the state is untouched, or a check failed and the state has
been reset (whatever the remaining status text is). -/
lemma recalc_fold_inv (ids : List FieldId) (s : CalcState)
    (acc : CalcState × Bool × List (FieldId × ℝ))
    (h : (acc.1 = s ∧ acc.2.1 = true) ∨ (acc.2.1 = false ∧ ResetShape s acc.1)) :
    ((ids.foldl recalcCheck acc).1 = s ∧ (ids.foldl recalcCheck acc).2.1 = true) ∨
      ((ids.foldl recalcCheck acc).2.1 = false ∧
        ResetShape s (ids.foldl recalcCheck acc).1) := by
  induction ids generalizing acc with
  | nil => simpa using h
  | cons a l ih =>
      rw [List.foldl_cons]
      apply ih
      obtain ⟨a1, a2, a3⟩ := acc
      rcases h with ⟨hs, hp⟩ | ⟨hp, hshape⟩
      · simp only at hs hp
        subst hs
        subst hp
        exact recalcCheck_good _ a3 a
      · simp only at hp hshape
        subst hp
        exact Or.inr (recalcCheck_bad s a1 a3 a hshape)

/-- The entries of potentialValidInputs: the fields whose text validates,
with their values, in the inputs order. -/
noncomputable def validEntries (s : CalcState) (ids : List FieldId) : List (FieldId × ℝ) :=
  ids.filterMap (fun id =>
    match validateField id (s.values id) with
    | .valid x => some (id, x)
    | _ => none)

/-- validCount of the initial-mode loop over all four fields. -/
noncomputable def suppliedCount (s : CalcState) : ℕ := (validEntries s allFields).length

/-- When every examined field is empty or valid, the initial-mode loop
leaves the state untouched, keeps hasInvalidFormat false, and collects
exactly the valid entries. -/
lemma initial_fold_ok (ids : List FieldId) (s0 : CalcState) (vals : List (FieldId × ℝ))
    (h : ∀ id ∈ ids, validateField id (s0.values id) = .empty ∨
      ∃ x, validateField id (s0.values id) = .valid x) :
    ids.foldl initialCheck (s0, false, vals) = (s0, false, vals ++ validEntries s0 ids) := by
  induction ids generalizing vals with
  | nil => simp [validEntries]
  | cons a l ih =>
      rcases h a (List.mem_cons_self a l) with ha | ⟨x, ha⟩
      · rw [List.foldl_cons, show initialCheck (s0, false, vals) a = (s0, false, vals) by
          simp only [initialCheck, ha]]
        rw [ih vals (fun id hid => h id (List.mem_cons_of_mem a hid))]
        simp [validEntries, ha]
      · rw [List.foldl_cons,
          show initialCheck (s0, false, vals) a = (s0, false, vals ++ [(a, x)]) by
            simp only [initialCheck, ha]]
        rw [ih _ (fun id hid => h id (List.mem_cons_of_mem a hid))]
        simp [validEntries, ha]

/-- The initial-mode loop never touches anything but the status line. -/
lemma initial_fold_state (ids : List FieldId) (acc : CalcState × Bool × List (FieldId × ℝ)) :
    ((ids.foldl initialCheck acc).1.values = acc.1.values ∧
      (ids.foldl initialCheck acc).1.readOnly = acc.1.readOnly) ∧
      (ids.foldl initialCheck acc).1.initialCalculationDone = acc.1.initialCalculationDone ∧
      (ids.foldl initialCheck acc).1.sourceFieldIds = acc.1.sourceFieldIds := by
  induction ids generalizing acc with
  | nil => exact ⟨⟨rfl, rfl⟩, rfl, rfl⟩
  | cons a l ih =>
      rw [List.foldl_cons]
      have step : (initialCheck acc a).1.values = acc.1.values ∧
          (initialCheck acc a).1.readOnly = acc.1.readOnly ∧
          (initialCheck acc a).1.initialCalculationDone = acc.1.initialCalculationDone ∧
          (initialCheck acc a).1.sourceFieldIds = acc.1.sourceFieldIds := by
        obtain ⟨s1, b, vals⟩ := acc
        cases hv : validateField a (s1.values a) with
        | empty => simp [initialCheck, hv]
        | invalidFormat i => simp [initialCheck, hv]
        | outOfDomain i =>
            by_cases hi : i = FieldId.pf <;> simp [initialCheck, hv, hi]
        | valid x => simp [initialCheck, hv]
      obtain ⟨⟨v1, r1⟩, d1, ids1⟩ := ih (initialCheck acc a)
      exact ⟨⟨v1.trans step.1, r1.trans step.2.1⟩, d1.trans step.2.2.1,
        ids1.trans step.2.2.2⟩

/-- validCount equals the number of collected entries, so a field text that
is empty or valid never sets hasInvalidFormat. -/
lemma value_not_invalid_of_validate (id : FieldId) (t : FieldText)
    (h : validateField id t = .empty ∨ ∃ x, validateField id t = .valid x) :
    t ≠ .invalid := by
  intro ht
  subst ht
  rcases h with h | ⟨x, h⟩ <;> simp [validateField] at h

/-- calculatePowerFactor in recalculation mode, written out. -/
lemma calc_done_eq (s : CalcState) (hdone : s.initialCalculationDone = true) :
    calculatePowerFactor s =
      (if (s.sourceFieldIds.foldl recalcCheck ({ s with status := "" }, true, [])).2.1 = false
       then (s.sourceFieldIds.foldl recalcCheck ({ s with status := "" }, true, [])).1
       else
         finishCalc (s.sourceFieldIds.foldl recalcCheck ({ s with status := "" }, true, [])).1
           (s.sourceFieldIds.foldl recalcCheck ({ s with status := "" }, true, [])).2.2
           (allFields.filter (fun id => !(s.sourceFieldIds.contains id)))) := by
  simp only [calculatePowerFactor, calcCore, hdone, if_true]

/-- calculatePowerFactor in initial mode, written out. -/
lemma calc_undone_eq (s : CalcState) (hdone : s.initialCalculationDone = false) :
    calculatePowerFactor s =
      (if (allFields.foldl initialCheck ({ s with status := "" }, false, [])).2.1 = true
       then resetToInitialState (allFields.foldl initialCheck ({ s with status := "" }, false, [])).1
       else if (allFields.foldl initialCheck ({ s with status := "" }, false, [])).2.2.length ≠ 2
       then
         resetToInitialState
           (if 2 < (allFields.foldl initialCheck ({ s with status := "" }, false, [])).2.2.length
            then { (allFields.foldl initialCheck ({ s with status := "" }, false, [])).1 with
                    status := "Please provide exactly two values." }
            else if (allFields.foldl initialCheck ({ s with status := "" }, false, [])).2.2.length = 1
            then { (allFields.foldl initialCheck ({ s with status := "" }, false, [])).1 with
                    status := "Please provide one more value." }
            else { (allFields.foldl initialCheck ({ s with status := "" }, false, [])).1 with
                    status := "" })
       else
         finishCalc
           { (allFields.foldl initialCheck ({ s with status := "" }, false, [])).1 with
              sourceFieldIds :=
                (allFields.foldl initialCheck ({ s with status := "" }, false, [])).2.2.map Prod.fst }
           (allFields.foldl initialCheck ({ s with status := "" }, false, [])).2.2
           (allFields.filter
             (fun id =>
               !(((allFields.foldl initialCheck
                    ({ s with status := "" }, false, [])).2.2.map Prod.fst).contains id)))) := by
  simp only [calculatePowerFactor, calcCore, hdone, Bool.false_eq_true, if_false]

/-- A recompute that fails while locked leaves a reset state. -/
lemma calc_locked_fail (s : CalcState) (hdone : s.initialCalculationDone = true)
    (hfail : (calculatePowerFactor s).initialCalculationDone = false) :
    ResetShape s (calculatePowerFactor s) := by
  rw [calc_done_eq s hdone] at hfail ⊢
  rcases recalc_fold_inv s.sourceFieldIds { s with status := "" }
      ({ s with status := "" }, true, []) (Or.inl ⟨rfl, rfl⟩) with ⟨h1, h2⟩ | ⟨h2, hshape⟩
  · rw [h2, if_neg (by simp)] at hfail ⊢
    rw [h1] at hfail ⊢
    obtain ⟨msg, hmsg⟩ := finishCalc_done_of_fail _ _ _ hfail
    rw [finishCalc_error _ _ _ msg hmsg]
    exact ResetShape_of_same s _ (fun j => rfl) (fun j => rfl)
  · rw [if_pos h2]
    exact hshape

/-- A recompute that stays locked keeps exactly the same source ids. -/
lemma calc_locked_success_sources (s : CalcState) (hdone : s.initialCalculationDone = true)
    (hsucc : (calculatePowerFactor s).initialCalculationDone = true) :
    (calculatePowerFactor s).sourceFieldIds = s.sourceFieldIds := by
  rw [calc_done_eq s hdone] at hsucc ⊢
  rcases recalc_fold_inv s.sourceFieldIds { s with status := "" }
      ({ s with status := "" }, true, []) (Or.inl ⟨rfl, rfl⟩) with ⟨h1, h2⟩ | ⟨h2, hshape⟩
  · rw [h2, if_neg (by simp)] at hsucc ⊢
    rw [h1] at hsucc ⊢
    cases hr : resolvePair
        (s.sourceFieldIds.foldl recalcCheck ({ s with status := "" }, true, [])).2.2 with
    | error msg =>
        rw [finishCalc_error _ _ _ msg hr] at hsucc
        simp at hsucc
    | ok r => rw [finishCalc_ok_sources _ _ _ r hr]
  · rw [if_pos h2] at hsucc ⊢
    rw [hshape.1] at hsucc
    exact absurd hsucc (by simp)

/-- After a recompute in initial mode the source set is empty or has two
members. -/
lemma calc_unlocked_sources (s : CalcState) (hdone : s.initialCalculationDone = false) :
    (calculatePowerFactor s).sourceFieldIds = [] ∨
      (calculatePowerFactor s).sourceFieldIds.length = 2 := by
  rw [calc_undone_eq s hdone]
  by_cases hinv : (allFields.foldl initialCheck ({ s with status := "" }, false, [])).2.1 = true
  · rw [if_pos hinv]
    left
    rfl
  · rw [if_neg hinv]
    by_cases hlen :
        (allFields.foldl initialCheck ({ s with status := "" }, false, [])).2.2.length ≠ 2
    · rw [if_pos hlen]
      left
      rfl
    · rw [if_neg hlen]
      push_neg at hlen
      cases hr : resolvePair
          (allFields.foldl initialCheck ({ s with status := "" }, false, [])).2.2 with
      | error msg =>
          rw [finishCalc_error _ _ _ msg hr]
          left
          rfl
      | ok r =>
          right
          rw [finishCalc_ok_sources _ _ _ r hr]
          simp [hlen]

/-- All four values satisfy the field domain constraints. -/
def resultsInDomain (r : Results) : Prop :=
  0 ≤ r.kw ∧ 0 ≤ r.kvar ∧ 0 ≤ r.kva ∧ 0 ≤ r.pf ∧ r.pf ≤ 1

lemma resolveKvaKw_dom (S P : ℝ) (r : Results) (hS : 0 ≤ S) (hP : 0 ≤ P)
    (h : resolveKvaKw S P = .ok r) : resultsInDomain r := by
  simp only [resolveKvaKw] at h
  by_cases hg1 : S = 0 ∧ P ≠ 0
  · rw [if_pos hg1] at h
    exact absurd h (by simp)
  rw [if_neg hg1] at h
  by_cases hg2 : |P| > |S|
  · rw [if_pos hg2] at h
    exact absurd h (by simp)
  rw [if_neg hg2] at h
  by_cases hS0 : S = 0
  · have hP0 : P = 0 := by
      by_contra hne
      exact hg1 ⟨hS0, hne⟩
    rw [if_pos hS0, if_pos hP0] at h
    simp only [Except.ok.injEq] at h
    subst h
    refine ⟨hP, ?_, hS, by norm_num, by norm_num⟩
    split_ifs <;> first | exact le_refl 0 | exact Real.sqrt_nonneg _
  · rw [if_neg hS0] at h
    simp only [Except.ok.injEq] at h
    subst h
    have hSpos : 0 < S := lt_of_le_of_ne hS (Ne.symm hS0)
    have hPS : P ≤ S := by
      calc P ≤ |P| := le_abs_self P
        _ ≤ |S| := not_lt.mp hg2
        _ = S := abs_of_nonneg hS
    refine ⟨hP, ?_, hS, div_nonneg hP hS, (div_le_one hSpos).mpr hPS⟩
    split_ifs <;> first | exact le_refl 0 | exact Real.sqrt_nonneg _

lemma resolveKvarKw_dom (Q P : ℝ) (r : Results) (hQ : 0 ≤ Q) (hP : 0 ≤ P)
    (h : resolveKvarKw Q P = .ok r) : resultsInDomain r := by
  have hsum : (0 : ℝ) ≤ P * P + Q * Q := by positivity
  simp only [resolveKvarKw] at h
  by_cases hz : Real.sqrt (P * P + Q * Q) = 0
  · have hzero : P * P + Q * Q = 0 := Real.sqrt_eq_zero hsum |>.mp hz
    have hP0 : P = 0 := by nlinarith
    rw [if_pos hz, if_pos hP0] at h
    simp only [Except.ok.injEq] at h
    subst h
    exact ⟨hP, hQ, Real.sqrt_nonneg _, by norm_num, by norm_num⟩
  · rw [if_neg hz] at h
    simp only [Except.ok.injEq] at h
    subst h
    have hpos : 0 < Real.sqrt (P * P + Q * Q) :=
      lt_of_le_of_ne (Real.sqrt_nonneg _) (Ne.symm hz)
    have hle : P ≤ Real.sqrt (P * P + Q * Q) := by
      calc P = Real.sqrt (P * P) := (Real.sqrt_mul_self hP).symm
        _ ≤ Real.sqrt (P * P + Q * Q) := Real.sqrt_le_sqrt (by nlinarith)
    exact ⟨hP, hQ, Real.sqrt_nonneg _, div_nonneg hP (Real.sqrt_nonneg _),
      (div_le_one hpos).mpr hle⟩

lemma resolveKwPf_dom (P F : ℝ) (r : Results) (hP : 0 ≤ P) (hF0 : 0 ≤ F) (hF1 : F ≤ 1)
    (h : resolveKwPf P F = .ok r) : resultsInDomain r := by
  simp only [resolveKwPf] at h
  by_cases hg1 : F = 0 ∧ P ≠ 0
  · rw [if_pos hg1] at h
    exact absurd h (by simp)
  rw [if_neg hg1] at h
  by_cases hg2 : F < 0 ∨ 1 < F
  · rw [if_pos hg2] at h
    exact absurd h (by simp)
  rw [if_neg hg2] at h
  by_cases hF : F = 0
  · have hP0 : P = 0 := by
      by_contra hne
      exact hg1 ⟨hF, hne⟩
    rw [if_pos hF, if_pos hP0] at h
    simp only [Except.ok.injEq] at h
    subst h
    refine ⟨hP, ?_, le_refl 0, hF0, hF1⟩
    split_ifs <;> first | exact le_refl 0 | exact Real.sqrt_nonneg _
  · rw [if_neg hF] at h
    simp only [Except.ok.injEq] at h
    subst h
    refine ⟨hP, ?_, div_nonneg hP hF0, hF0, hF1⟩
    split_ifs <;> first | exact le_refl 0 | exact Real.sqrt_nonneg _

lemma resolveKvaKvar_dom (S Q : ℝ) (r : Results) (hS : 0 ≤ S) (hQ : 0 ≤ Q)
    (h : resolveKvaKvar S Q = .ok r) : resultsInDomain r := by
  simp only [resolveKvaKvar] at h
  by_cases hg1 : |Q| > |S|
  · rw [if_pos hg1] at h
    exact absurd h (by simp)
  rw [if_neg hg1] at h
  by_cases hS0 : S = 0
  · have hQ0 : Q = 0 := by
      have habs := not_lt.mp hg1
      rw [hS0, abs_zero] at habs
      exact abs_eq_zero.mp (le_antisymm habs (abs_nonneg Q))
    have hkw0 : (if S * S < Q * Q then (0 : ℝ) else Real.sqrt (S * S - Q * Q)) = 0 := by
      subst hS0
      subst hQ0
      norm_num [Real.sqrt_zero]
    rw [if_pos hS0, if_pos hkw0] at h
    simp only [Except.ok.injEq] at h
    subst h
    refine ⟨?_, hQ, hS, by norm_num, by norm_num⟩
    split_ifs <;> first | exact le_refl 0 | exact Real.sqrt_nonneg _
  · rw [if_neg hS0] at h
    simp only [Except.ok.injEq] at h
    subst h
    have hSpos : 0 < S := lt_of_le_of_ne hS (Ne.symm hS0)
    have hkw_nonneg : (0 : ℝ) ≤
        if S * S < Q * Q then (0 : ℝ) else Real.sqrt (S * S - Q * Q) := by
      split_ifs <;> first | exact le_refl 0 | exact Real.sqrt_nonneg _
    have hkw_le : (if S * S < Q * Q then (0 : ℝ) else Real.sqrt (S * S - Q * Q)) ≤ S := by
      split_ifs with hc
      · exact hS
      · calc Real.sqrt (S * S - Q * Q) ≤ Real.sqrt (S * S) :=
            Real.sqrt_le_sqrt (by nlinarith)
          _ = S := Real.sqrt_mul_self hS
    exact ⟨hkw_nonneg, hQ, hS, div_nonneg hkw_nonneg hS, (div_le_one hSpos).mpr hkw_le⟩

lemma resolveKvaPf_dom (S F : ℝ) (r : Results) (hS : 0 ≤ S) (hF0 : 0 ≤ F) (hF1 : F ≤ 1)
    (h : resolveKvaPf S F = .ok r) : resultsInDomain r := by
  simp only [resolveKvaPf] at h
  by_cases hg : F < 0 ∨ 1 < F
  · rw [if_pos hg] at h
    exact absurd h (by simp)
  · rw [if_neg hg] at h
    simp only [Except.ok.injEq] at h
    subst h
    refine ⟨mul_nonneg hS hF0, ?_, hS, hF0, hF1⟩
    split_ifs <;> first | exact le_refl 0 | exact Real.sqrt_nonneg _

lemma resolveKvarPf_dom (Q F : ℝ) (r : Results) (hQ : 0 ≤ Q) (hF0 : 0 ≤ F) (hF1 : F ≤ 1)
    (h : resolveKvarPf Q F = .ok r) : resultsInDomain r := by
  simp only [resolveKvarPf] at h
  by_cases hg1 : F < 0 ∨ 1 < F
  · rw [if_pos hg1] at h
    exact absurd h (by simp)
  rw [if_neg hg1] at h
  by_cases hg2 : F = 1 ∧ Q ≠ 0
  · rw [if_pos hg2] at h
    exact absurd h (by simp)
  rw [if_neg hg2] at h
  by_cases hg3 : F = 0 ∧ Q = 0
  · rw [if_pos hg3] at h
    simp only [Except.ok.injEq] at h
    subst h
    exact ⟨le_refl 0, hQ, le_refl 0, hF0, hF1⟩
  rw [if_neg hg3] at h
  by_cases hg4 : F = 1
  · rw [if_pos hg4] at h
    exact absurd h (by simp)
  rw [if_neg hg4] at h
  by_cases hg5 : F = 0
  · rw [if_pos hg5] at h
    simp only [Except.ok.injEq] at h
    subst h
    exact ⟨le_refl 0, hQ, abs_nonneg Q, hF0, hF1⟩
  rw [if_neg hg5] at h
  simp only [Except.ok.injEq] at h
  subst h
  have hFpos : 0 < F := lt_of_le_of_ne hF0 (Ne.symm hg5)
  have hFlt : F < 1 := lt_of_le_of_ne hF1 hg4
  have hsq : 0 < Real.sqrt (1 - F ^ 2) := Real.sqrt_pos.mpr (by nlinarith)
  have htan : 0 < Real.tan (Real.arccos F) := by
    rw [Real.tan_arccos]
    exact div_pos hsq hFpos
  have hsin : 0 < Real.sin (Real.arccos F) := by
    rw [Real.sin_arccos]
    exact hsq
  have hkw : (0 : ℝ) ≤
      if |F| < 1 / 10 ^ 9 then (0 : ℝ) else Q / Real.tan (Real.arccos F) := by
    split_ifs <;> first | exact le_refl 0 | exact div_nonneg hQ htan.le
  refine ⟨hkw, hQ, ?_, hF0, hF1⟩
  split_ifs <;> first | exact abs_nonneg _ | exact div_nonneg hQ hsin.le

lemma sq_sum_pos_of_ne (P Q : ℝ) (hP : 0 ≤ P) (hQ : 0 ≤ Q) (hz : ¬(P = 0 ∧ Q = 0)) :
    0 < P * P + Q * Q := by
  rcases not_and_or.mp hz with hp | hq
  · have : 0 < P := lt_of_le_of_ne hP (Ne.symm hp)
    nlinarith
  · have : 0 < Q := lt_of_le_of_ne hQ (Ne.symm hq)
    nlinarith

/-- C2: for nonnegative P and Q, resolving the pair (reactivePower,
realPower) yields S and F from which the pair (apparentPower, powerFactor)
re-derives exactly the original P and Q (the tolerance is exact over the
real numbers). -/
theorem roundTrip_QP_then_SF (P Q : ℝ) (hP : 0 ≤ P) (hQ : 0 ≤ Q) :
    ∃ r r2 : Results, resolveKvarKw Q P = .ok r ∧ resolveKvaPf r.kva r.pf = .ok r2 ∧
      r2.kw = P ∧ r2.kvar = Q := by
  have hsum : (0 : ℝ) ≤ P * P + Q * Q := by positivity
  by_cases hz : P = 0 ∧ Q = 0
  · obtain ⟨hp0, hq0⟩ := hz
    subst hp0
    subst hq0
    refine ⟨⟨0, Real.sqrt (0 * 0 + 0 * 0), 0, 1⟩, ⟨Real.sqrt (0 * 0 + 0 * 0) * 1,
      Real.sqrt (0 * 0 + 0 * 0), 0, 1⟩, ?_, ?_, ?_, ?_⟩
    · simp only [resolveKvarKw]
      have hc1 : Real.sqrt ((0 : ℝ) * 0 + 0 * 0) = 0 := by norm_num [Real.sqrt_zero]
      rw [if_pos hc1]
      simp
    · simp only [resolveKvaPf]
      have hg : ¬ ((1 : ℝ) < 0 ∨ (1 : ℝ) < 1) := by norm_num
      rw [if_neg hg]
      norm_num [Real.sqrt_zero]
    · norm_num [Real.sqrt_zero]
    · rfl
  · have hpos : 0 < P * P + Q * Q := sq_sum_pos_of_ne P Q hP hQ hz
    have hkpos : 0 < Real.sqrt (P * P + Q * Q) := Real.sqrt_pos.mpr hpos
    have hkne : Real.sqrt (P * P + Q * Q) ≠ 0 := ne_of_gt hkpos
    have hmul : Real.sqrt (P * P + Q * Q) * Real.sqrt (P * P + Q * Q) = P * P + Q * Q :=
      Real.mul_self_sqrt hsum
    have hPle : P ≤ Real.sqrt (P * P + Q * Q) := by
      calc P = Real.sqrt (P * P) := (Real.sqrt_mul_self hP).symm
        _ ≤ Real.sqrt (P * P + Q * Q) := Real.sqrt_le_sqrt (by nlinarith)
    have hdiv0 : 0 ≤ P / Real.sqrt (P * P + Q * Q) := div_nonneg hP (Real.sqrt_nonneg _)
    have hdiv1 : P / Real.sqrt (P * P + Q * Q) ≤ 1 := (div_le_one hkpos).mpr hPle
    have hkw : Real.sqrt (P * P + Q * Q) * (P / Real.sqrt (P * P + Q * Q)) = P := by
      field_simp
    refine ⟨⟨P, Real.sqrt (P * P + Q * Q), Q, P / Real.sqrt (P * P + Q * Q)⟩,
      ⟨P, Real.sqrt (P * P + Q * Q), Q, P / Real.sqrt (P * P + Q * Q)⟩, ?_, ?_, rfl, rfl⟩
    · simp only [resolveKvarKw]
      rw [if_neg hkne]
    · simp only [resolveKvaPf]
      have hgne : ¬ (P / Real.sqrt (P * P + Q * Q) < 0 ∨
          1 < P / Real.sqrt (P * P + Q * Q)) := by
        push_neg
        exact ⟨hdiv0, hdiv1⟩
      rw [if_neg hgne, hkw, hmul]
      have hnlt : ¬ (P * P + Q * Q < P * P) := by nlinarith
      rw [if_neg hnlt]
      rw [show P * P + Q * Q - P * P = Q * Q by ring, Real.sqrt_mul_self hQ]

/-- C2 witness at the spec example P = 300, Q = 400 (S = 500, F = 0.6). -/
theorem roundTrip_QP_then_SF_witness :
    ∃ r r2 : Results, resolveKvarKw 400 300 = .ok r ∧ resolveKvaPf r.kva r.pf = .ok r2 ∧
      r2.kw = 300 ∧ r2.kvar = 400 :=
  roundTrip_QP_then_SF 300 400 (by norm_num) (by norm_num)

/-- C10: on every one of the six source pairs, if the two supplied values
are in-domain (powers nonnegative, power factor in the unit interval) and
the resolver succeeds, all four produced values are in-domain as well. -/
theorem resolver_preserves_domain (x y : ℝ) (r : Results) :
    (0 ≤ x → 0 ≤ y → resolveKvaKw x y = .ok r → resultsInDomain r) ∧
      (0 ≤ x → 0 ≤ y → resolveKvarKw x y = .ok r → resultsInDomain r) ∧
      (0 ≤ x → 0 ≤ y → y ≤ 1 → resolveKwPf x y = .ok r → resultsInDomain r) ∧
      (0 ≤ x → 0 ≤ y → resolveKvaKvar x y = .ok r → resultsInDomain r) ∧
      (0 ≤ x → 0 ≤ y → y ≤ 1 → resolveKvaPf x y = .ok r → resultsInDomain r) ∧
      (0 ≤ x → 0 ≤ y → y ≤ 1 → resolveKvarPf x y = .ok r → resultsInDomain r) :=
  ⟨fun hx hy h => resolveKvaKw_dom x y r hx hy h,
    fun hx hy h => resolveKvarKw_dom x y r hx hy h,
    fun hx hy hy1 h => resolveKwPf_dom x y r hx hy hy1 h,
    fun hx hy h => resolveKvaKvar_dom x y r hx hy h,
    fun hx hy hy1 h => resolveKvaPf_dom x y r hx hy hy1 h,
    fun hx hy hy1 h => resolveKvarPf_dom x y r hx hy hy1 h⟩

/-- C10 witness: the pair kva = 500, kw = 300 resolves and the produced
values are in-domain. -/
theorem resolver_preserves_domain_witness : resultsInDomain ⟨300, 500, 400, 3 / 5⟩ :=
  (resolver_preserves_domain 500 300 ⟨300, 500, 400, 3 / 5⟩).1 (by norm_num) (by norm_num)
    resolveKvaKw_500_300

lemma resolveKvarPf_pf1_ne (Q : ℝ) (hQ : Q ≠ 0) :
    resolveKvarPf Q 1 = .error "PF cannot be 1 if kVAR is non-zero." := by
  norm_num [resolveKvarPf, hQ]

lemma resolveKvarPf_00 : resolveKvarPf 0 0 = .ok ⟨0, 0, 0, 0⟩ := by
  norm_num [resolveKvarPf]

lemma resolveKvarPf_pf0 (Q : ℝ) (hQ : Q ≠ 0) :
    resolveKvarPf Q 0 = .ok ⟨0, |Q|, Q, 0⟩ := by
  norm_num [resolveKvarPf, hQ]

lemma resolveKvarPf_pf1_Q0 :
    resolveKvarPf 0 1 =
      .error "Cannot calculate from kVAR and PF=1. Please provide kW or kVA instead." := by
  norm_num [resolveKvarPf]

lemma resolveKvarPf_mid (Q F : ℝ) (hlo : 1 / 10 ^ 9 ≤ F) (hhi : F ≤ 1 - 1 / 10 ^ 9) :
    resolveKvarPf Q F =
      .ok ⟨Q / Real.tan (Real.arccos F), Q / Real.sin (Real.arccos F), Q, F⟩ := by
  have hFpos : (0 : ℝ) < F := lt_of_lt_of_le (by norm_num) hlo
  have hFlt : F < 1 := lt_of_le_of_lt hhi (by norm_num)
  simp only [resolveKvarPf]
  have g1 : ¬ (F < 0 ∨ 1 < F) := by
    push_neg
    exact ⟨hFpos.le, hFlt.le⟩
  have g2 : ¬ (F = 1 ∧ Q ≠ 0) := fun hc => absurd hc.1 (ne_of_lt hFlt)
  have g3 : ¬ (F = 0 ∧ Q = 0) := fun hc => absurd hc.1 (ne_of_gt hFpos)
  have g4 : ¬ (F = 1) := ne_of_lt hFlt
  have g5 : ¬ (F = 0) := ne_of_gt hFpos
  have hkwc : ¬ (|F| < 1 / 10 ^ 9) := by
    rw [abs_of_pos hFpos]
    exact not_lt.mpr hlo
  have hkvac : ¬ (|F - 1| < 1 / 10 ^ 9) := by
    rw [abs_of_nonpos (by linarith)]
    exact not_lt.mpr (by linarith)
  rw [if_neg g1, if_neg g2, if_neg g3, if_neg g4, if_neg g5, if_neg hkwc, if_neg hkvac]

lemma resolveKvarPf_tiny (Q F : ℝ) (h0 : 0 < F) (hsm : F < 1 / 10 ^ 9) :
    resolveKvarPf Q F = .ok ⟨0, Q / Real.sin (Real.arccos F), Q, F⟩ := by
  have hFlt : F < 1 := lt_trans hsm (by norm_num)
  simp only [resolveKvarPf]
  have g1 : ¬ (F < 0 ∨ 1 < F) := by
    push_neg
    exact ⟨h0.le, hFlt.le⟩
  have g2 : ¬ (F = 1 ∧ Q ≠ 0) := fun hc => absurd hc.1 (ne_of_lt hFlt)
  have g3 : ¬ (F = 0 ∧ Q = 0) := fun hc => absurd hc.1 (ne_of_gt h0)
  have g4 : ¬ (F = 1) := ne_of_lt hFlt
  have g5 : ¬ (F = 0) := ne_of_gt h0
  have hkwc : |F| < 1 / 10 ^ 9 := by
    rw [abs_of_pos h0]
    exact hsm
  have hq : (1 : ℝ) / 10 ^ 9 + 1 / 10 ^ 9 ≤ 1 := by norm_num
  have hkvac : ¬ (|F - 1| < 1 / 10 ^ 9) := by
    rw [abs_of_nonpos (by linarith)]
    exact not_lt.mpr (by linarith)
  rw [if_neg g1, if_neg g2, if_neg g3, if_neg g4, if_neg g5, if_pos hkwc, if_neg hkvac]

lemma resolveKvarPf_nearOne (Q F : ℝ) (hlo : 1 - 1 / 10 ^ 9 < F) (hhi : F < 1) :
    resolveKvarPf Q F =
      .ok ⟨Q / Real.tan (Real.arccos F), |Q / Real.tan (Real.arccos F)|, Q, F⟩ := by
  have hc : (0 : ℝ) < 1 - 1 / 10 ^ 9 := by norm_num
  have hFpos : (0 : ℝ) < F := lt_trans hc hlo
  simp only [resolveKvarPf]
  have g1 : ¬ (F < 0 ∨ 1 < F) := by
    push_neg
    exact ⟨hFpos.le, hhi.le⟩
  have g2 : ¬ (F = 1 ∧ Q ≠ 0) := fun hx => absurd hx.1 (ne_of_lt hhi)
  have g3 : ¬ (F = 0 ∧ Q = 0) := fun hx => absurd hx.1 (ne_of_gt hFpos)
  have g4 : ¬ (F = 1) := ne_of_lt hhi
  have g5 : ¬ (F = 0) := ne_of_gt hFpos
  have hq : (1 : ℝ) / 10 ^ 9 ≤ 1 - 1 / 10 ^ 9 := by norm_num
  have hkwc : ¬ (|F| < 1 / 10 ^ 9) := by
    rw [abs_of_pos hFpos]
    exact not_lt.mpr (by linarith)
  have hkvac : |F - 1| < 1 / 10 ^ 9 := by
    rw [abs_of_nonpos (by linarith)]
    linarith
  rw [if_neg g1, if_neg g2, if_neg g3, if_neg g4, if_neg g5, if_neg hkwc, if_pos hkvac]

/-- C3 (amended): for the pair (reactivePower, powerFactor): F = 1 with
Q nonzero is rejected as impossible; F = 0 with Q = 0 yields P = 0 and
S = 0; F = 0 with Q nonzero yields P = 0 and S equal to the absolute value
of Q; F = 1 with Q = 0 is rejected as underdetermined; for in-domain F
with 1e-9 at most F at most 1 - 1e-9 the results are P = Q / tan(acos F)
and S = Q / sin(acos F); for 0 under F under 1e-9 the code snaps P to
exactly 0 (still S = Q / sin(acos F)); and for 1 - 1e-9 under F under 1 it
computes P = Q / tan(acos F) but returns S as the absolute value of that P
instead of Q / sin(acos F). -/
theorem kvarPf_spec (Q F : ℝ) :
    (Q ≠ 0 → resolveKvarPf Q 1 = .error "PF cannot be 1 if kVAR is non-zero.") ∧
      resolveKvarPf 0 0 = .ok ⟨0, 0, 0, 0⟩ ∧
      (Q ≠ 0 → resolveKvarPf Q 0 = .ok ⟨0, |Q|, Q, 0⟩) ∧
      resolveKvarPf 0 1 =
        .error "Cannot calculate from kVAR and PF=1. Please provide kW or kVA instead." ∧
      (1 / 10 ^ 9 ≤ F → F ≤ 1 - 1 / 10 ^ 9 →
        resolveKvarPf Q F =
          .ok ⟨Q / Real.tan (Real.arccos F), Q / Real.sin (Real.arccos F), Q, F⟩) ∧
      (0 < F → F < 1 / 10 ^ 9 →
        resolveKvarPf Q F = .ok ⟨0, Q / Real.sin (Real.arccos F), Q, F⟩) ∧
      (1 - 1 / 10 ^ 9 < F → F < 1 →
        resolveKvarPf Q F =
          .ok ⟨Q / Real.tan (Real.arccos F), |Q / Real.tan (Real.arccos F)|, Q, F⟩) :=
  ⟨resolveKvarPf_pf1_ne Q, resolveKvarPf_00, resolveKvarPf_pf0 Q, resolveKvarPf_pf1_Q0,
    resolveKvarPf_mid Q F, resolveKvarPf_tiny Q F, resolveKvarPf_nearOne Q F⟩

/-- C3 witness: Q = 100 with F = 1 is rejected (the spec example), and the
generic-formula branch at Q = 1, F = 1/2. -/
theorem kvarPf_spec_witness :
    resolveKvarPf 100 1 = .error "PF cannot be 1 if kVAR is non-zero." ∧
      resolveKvarPf 1 (1 / 2) =
        .ok ⟨1 / Real.tan (Real.arccos (1 / 2)), 1 / Real.sin (Real.arccos (1 / 2)), 1,
          1 / 2⟩ :=
  ⟨(kvarPf_spec 100 1).1 (by norm_num),
    (kvarPf_spec 1 (1 / 2)).2.2.2.2.1 (by norm_num) (by norm_num)⟩

/-- C3 counterexample: at the in-domain power factor F = 1e-10 with Q = 1
(none of the special cases F = 0, F = 1), the code returns P = 0, but the
claimed formula P = Q / tan(acos F) is nonzero. -/
theorem kvarPf_small_pf_cex :
    resolveKvarPf 1 (1 / 10 ^ 10) =
        .ok ⟨0, 1 / Real.sin (Real.arccos (1 / 10 ^ 10)), 1, 1 / 10 ^ 10⟩ ∧
      1 / Real.tan (Real.arccos ((1 : ℝ) / 10 ^ 10)) ≠ 0 := by
  constructor
  · exact resolveKvarPf_tiny 1 (1 / 10 ^ 10) (by norm_num) (by norm_num)
  · have hx : (0 : ℝ) < 1 / 10 ^ 10 := by norm_num
    have hsq : (0 : ℝ) < Real.sqrt (1 - (1 / 10 ^ 10) ^ 2) := by
      apply Real.sqrt_pos.mpr
      norm_num
    have htan : 0 < Real.tan (Real.arccos (1 / 10 ^ 10)) := by
      rw [Real.tan_arccos]
      exact div_pos hsq hx
    exact one_div_ne_zero (ne_of_gt htan)

/-- C5: validating one raw field text yields exactly one of the four
outcomes of the taxonomy: empty text is Empty (not an error), unparseable
text is InvalidFormat naming the field, a numeric value violating the
field domain (negative power, or power factor outside [0,1]) is
OutOfDomain naming the field, and any other numeric value is Valid with
the parsed number.  validateField takes only the field id and its own
text, so the classification cannot depend on which fields are sources. -/
theorem validator_classification (id : FieldId) (x : ℝ) :
    validateField id .empty = .empty ∧
      validateField id .invalid = .invalidFormat id ∧
      (outOfDomainVal id x → validateField id (.num x) = .outOfDomain id) ∧
      (¬ outOfDomainVal id x → validateField id (.num x) = .valid x) :=
  ⟨validateField_empty id, validateField_invalid id,
    validateField_num_ood id x, validateField_num_ok id x⟩

/-- C5 witness: a power factor of 2 is classified OutOfDomain; a real
power of 3 is classified Valid. -/
theorem validator_classification_witness :
    validateField .pf (.num 2) = .outOfDomain .pf ∧
      validateField .kw (.num 3) = .valid 3 :=
  ⟨(validator_classification .pf 2).2.2.1 (Or.inr ⟨rfl, Or.inr (by norm_num)⟩),
    (validator_classification .kw 3).2.2.2 (by
      intro h
      rcases h with ⟨hA, hx⟩ | ⟨hpf, hx⟩
      · norm_num at hx
      · exact kw_ne_pf hpf)⟩

/-- The panel state of the C4 example: kva = 100 and kvar = 150 supplied,
nothing locked yet. -/
def cexC4state : CalcState :=
  { values := fun id => match id with
      | .kva => .num 100
      | .kvar => .num 150
      | _ => .empty
    readOnly := fun _ => false
    status := ""
    initialCalculationDone := false
    sourceFieldIds := [] }

lemma resolveKvaKvar_100_150 :
    resolveKvaKvar 100 150 = .error "Absolute kVAR cannot be greater than absolute kVA." := by
  simp only [resolveKvaKvar]
  rw [if_pos]
  rw [abs_of_nonneg (by norm_num : (0 : ℝ) ≤ 150), abs_of_nonneg (by norm_num : (0 : ℝ) ≤ 100)]
  norm_num

lemma resolvePair_kva100_kvar150 :
    resolvePair [(.kva, 100), (.kvar, 150)] =
      .error "Absolute kVAR cannot be greater than absolute kVA." := by
  unfold resolvePair
  norm_num [jsRank, resolveKvaKvar_100_150]

lemma cexC4_step :
    (calculatePowerFactor cexC4state).status =
        "Calculation Error: Absolute kVAR cannot be greater than absolute kVA." ∧
      (∀ id, (calculatePowerFactor cexC4state).readOnly id = false) ∧
      (calculatePowerFactor cexC4state).initialCalculationDone = false := by
  unfold calculatePowerFactor calcCore cexC4state
  simp only [allFields, List.foldl_cons, List.foldl_nil, initialCheck, validateField]
  norm_num
  rw [finishCalc_error _ _ _ _ resolvePair_kva100_kvar150]
  refine ⟨rfl, fun id => rfl, rfl⟩

/-- C4: for the pair (apparentPower, reactivePower): a reactive magnitude
exceeding the apparent magnitude is rejected as impossible; otherwise
P = sqrt(S^2 - Q^2) clamped to 0 when S^2 < Q^2, and F = P/S with F = 1
when P = 0 and S = 0; and the rejected example S = 100, Q = 150 surfaces
the impossibility message and makes all four fields editable again. -/
theorem kvaKvar_spec (S Q : ℝ) :
    (|Q| > |S| →
      resolveKvaKvar S Q = .error "Absolute kVAR cannot be greater than absolute kVA.") ∧
      (¬ |Q| > |S| →
        ∃ r : Results, resolveKvaKvar S Q = .ok r ∧
          r.kw = (if S * S < Q * Q then 0 else Real.sqrt (S * S - Q * Q)) ∧
          r.kva = S ∧ r.kvar = Q ∧
          r.pf = (if r.kw = 0 ∧ S = 0 then 1 else r.kw / S)) ∧
      ((calculatePowerFactor cexC4state).status =
          "Calculation Error: Absolute kVAR cannot be greater than absolute kVA." ∧
        (∀ id, (calculatePowerFactor cexC4state).readOnly id = false) ∧
        (calculatePowerFactor cexC4state).initialCalculationDone = false) := by
  refine ⟨?_, ?_, cexC4_step⟩
  · intro hg
    simp only [resolveKvaKvar]
    rw [if_pos hg]
  · intro hg
    by_cases hS0 : S = 0
    · have hQ0 : Q = 0 := by
        have habs := not_lt.mp hg
        rw [hS0, abs_zero] at habs
        exact abs_eq_zero.mp (le_antisymm habs (abs_nonneg Q))
      have hkw0 : (if S * S < Q * Q then (0 : ℝ) else Real.sqrt (S * S - Q * Q)) = 0 := by
        subst hS0
        subst hQ0
        norm_num [Real.sqrt_zero]
      refine ⟨⟨if S * S < Q * Q then (0 : ℝ) else Real.sqrt (S * S - Q * Q), S, Q, 1⟩,
        ?_, rfl, rfl, rfl, ?_⟩
      · simp only [resolveKvaKvar]
        rw [if_neg hg, if_pos hS0, if_pos hkw0]
      · exact (if_pos ⟨hkw0, hS0⟩).symm
    · refine ⟨⟨if S * S < Q * Q then (0 : ℝ) else Real.sqrt (S * S - Q * Q), S, Q,
        (if S * S < Q * Q then (0 : ℝ) else Real.sqrt (S * S - Q * Q)) / S⟩,
        ?_, rfl, rfl, rfl, ?_⟩
      · simp only [resolveKvaKvar]
        rw [if_neg hg, if_neg hS0]
      · exact (if_neg (fun hc => hS0 hc.2)).symm

/-- C4 witness: the spec example S = 100, Q = 150 is rejected with the
impossibility message. -/
theorem kvaKvar_spec_witness :
    resolveKvaKvar 100 150 = .error "Absolute kVAR cannot be greater than absolute kVA." :=
  (kvaKvar_spec 100 150).1 (by
    rw [abs_of_nonneg (by norm_num : (0 : ℝ) ≤ 150),
      abs_of_nonneg (by norm_num : (0 : ℝ) ≤ 100)]
    norm_num)

/-- The locked session of the C1 example: sources kw = 300 and kva = 500
(S = 500, P = 300), with arbitrary display texts in the two derived
fields. -/
def lockedSP (t1 t2 : FieldText) : CalcState :=
  { values := fun id => match id with
      | .kw => .num 300
      | .kva => .num 500
      | .kvar => t1
      | .pf => t2
    readOnly := fun id => match id with
      | .kvar => true
      | .pf => true
      | _ => false
    status := ""
    initialCalculationDone := true
    sourceFieldIds := [.kw, .kva] }

lemma lockedSP_values_eval (t1 t2 : FieldText) :
    (calculatePowerFactor (lockedSP t1 t2)).values = fun id =>
      match id with
      | .kw => .num 300
      | .kva => .num 500
      | .kvar => .num 400
      | .pf => .num (3 / 5) := by
  unfold calculatePowerFactor calcCore lockedSP
  simp only [List.foldl_cons, List.foldl_nil, recalcCheck]
  norm_num
  unfold finishCalc
  rw [resolvePair_kw300_kva500]
  simp only [allFields, applyResults, markSourcesEditable, List.foldl_cons, List.foldl_nil]
  funext id
  cases id <;>
    norm_num [List.contains, Function.update, displayValue, resultGet, snapTiny_400,
      snapTiny_35, toFixed3_400, toFixed3_35]

/-- The invariant of the claim: the locked source set has exactly 0 or 2
members. -/
def sourcesInv (s : CalcState) : Prop :=
  s.sourceFieldIds.length = 0 ∨ s.sourceFieldIds.length = 2

/-- C1: a recompute preserves the 0-or-2 invariant on the locked source
set; while locked, a recompute that stays locked uses exactly the same
two source ids, whatever any field text was edited to; and concretely,
locked on S = 500, P = 300, the derived field texts have no effect: the
recompute writes kvar = 400 and pf = 0.6 and the resulting field values
are identical to those with empty derived texts. -/
theorem locked_sources_invariant (s : CalcState) (t1 t2 : FieldText)
    (hInv : sourcesInv s) :
    sourcesInv (calculatePowerFactor s) ∧
      (s.initialCalculationDone = true →
        (calculatePowerFactor s).initialCalculationDone = true →
        (calculatePowerFactor s).sourceFieldIds = s.sourceFieldIds) ∧
      (calculatePowerFactor (lockedSP t1 t2)).values .kvar = .num 400 ∧
      (calculatePowerFactor (lockedSP t1 t2)).values .pf = .num (3 / 5) ∧
      (calculatePowerFactor (lockedSP t1 t2)).values =
        (calculatePowerFactor (lockedSP .empty .empty)).values := by
  refine ⟨?_, fun hd hs => calc_locked_success_sources s hd hs, ?_, ?_, ?_⟩
  · unfold sourcesInv
    unfold sourcesInv at hInv
    by_cases hd : s.initialCalculationDone = true
    · by_cases hs : (calculatePowerFactor s).initialCalculationDone = true
      · rw [calc_locked_success_sources s hd hs]
        exact hInv
      · have hf : (calculatePowerFactor s).initialCalculationDone = false := by
          simpa using hs
        left
        rw [(calc_locked_fail s hd hf).2.1]
        rfl
    · have hd2 : s.initialCalculationDone = false := by simpa using hd
      rcases calc_unlocked_sources s hd2 with h | h
      · left
        rw [h]
        rfl
      · right
        exact h
  · rw [lockedSP_values_eval t1 t2]
  · rw [lockedSP_values_eval t1 t2]
  · rw [lockedSP_values_eval t1 t2, lockedSP_values_eval .empty .empty]

/-- C1 witness at the pristine panel and empty derived texts. -/
theorem locked_sources_invariant_witness :
    sourcesInv (calculatePowerFactor initialState) ∧
      (initialState.initialCalculationDone = true →
        (calculatePowerFactor initialState).initialCalculationDone = true →
        (calculatePowerFactor initialState).sourceFieldIds =
          initialState.sourceFieldIds) ∧
      (calculatePowerFactor (lockedSP .empty .empty)).values .kvar = .num 400 ∧
      (calculatePowerFactor (lockedSP .empty .empty)).values .pf = .num (3 / 5) ∧
      (calculatePowerFactor (lockedSP .empty .empty)).values =
        (calculatePowerFactor (lockedSP .empty .empty)).values :=
  locked_sources_invariant initialState .empty .empty (Or.inl rfl)

/-- The locked session of the C6 example: locked on kw and kva, the kw
text has been emptied, and the derived fields kvar and pf still hold their
computed numeric values. -/
noncomputable def cexC6state : CalcState :=
  { values := fun id => match id with
      | .kw => .empty
      | .kva => .num 500
      | .kvar => .num 400
      | .pf => .num (3 / 5)
    readOnly := fun id => match id with
      | .kvar => true
      | .pf => true
      | _ => false
    status := ""
    initialCalculationDone := true
    sourceFieldIds := [.kw, .kva] }

lemma cexC6_eval :
    (calculatePowerFactor cexC6state).values .kvar = .empty ∧
      (calculatePowerFactor cexC6state).initialCalculationDone = false := by
  unfold calculatePowerFactor calcCore cexC6state
  simp only [List.foldl_cons, List.foldl_nil, recalcCheck]
  norm_num [resetToInitialState, clearedOnReset]

/-- C6 counterexample: while locked, the derived field kvar holds the
merely numeric value 400, yet the failing recompute (kw became empty)
clears it instead of keeping it, because resetToInitialState clears every
read-only field. -/
theorem reset_clears_numeric_derived :
    cexC6state.values .kvar = .num 400 ∧
      (calculatePowerFactor cexC6state).values .kvar = .empty :=
  ⟨rfl, cexC6_eval.1⟩

/-- C6 (amended): on any failure while locked the session resets to
Unlocked and every field becomes editable; a field holding unparseable
text and every read-only (derived) field is cleared, while an editable
field holding empty or numeric (possibly out-of-domain) text keeps its
text. -/
theorem locked_failure_resets (s : CalcState) (hdone : s.initialCalculationDone = true)
    (hfail : (calculatePowerFactor s).initialCalculationDone = false) :
    (calculatePowerFactor s).sourceFieldIds = [] ∧
      (∀ id, (calculatePowerFactor s).readOnly id = false) ∧
      (∀ id, (calculatePowerFactor s).values id =
        clearedOnReset (s.readOnly id) (s.values id)) := by
  obtain ⟨h1, h2, h3, h4⟩ := calc_locked_fail s hdone hfail
  exact ⟨h2, h3, h4⟩

/-- C6 witness at the concrete failing locked state. -/
theorem locked_failure_resets_witness :
    (calculatePowerFactor cexC6state).sourceFieldIds = [] ∧
      (∀ id, (calculatePowerFactor cexC6state).readOnly id = false) ∧
      (∀ id, (calculatePowerFactor cexC6state).values id =
        clearedOnReset (cexC6state.readOnly id) (cexC6state.values id)) :=
  locked_failure_resets cexC6state rfl cexC6_eval.2

/-- C7: in the Unlocked state, when every supplied field text is parseable
and in-domain but the number of supplied fields is not exactly two, the
session stays Unlocked, no value or flag changes, and the status is the
count-specific message: silent for zero, a need-one-more message for one,
a too-many message for more than two. -/
theorem unlocked_wrong_count (s : CalcState)
    (hdone : s.initialCalculationDone = false)
    (hro : ∀ id, s.readOnly id = false)
    (hok : ∀ id, validateField id (s.values id) = .empty ∨
      ∃ x, validateField id (s.values id) = .valid x)
    (hcount : suppliedCount s ≠ 2) :
    (calculatePowerFactor s).initialCalculationDone = false ∧
      (calculatePowerFactor s).sourceFieldIds = [] ∧
      (∀ id, (calculatePowerFactor s).values id = s.values id) ∧
      (∀ id, (calculatePowerFactor s).readOnly id = false) ∧
      (calculatePowerFactor s).status =
        (if 2 < suppliedCount s then "Please provide exactly two values."
         else if suppliedCount s = 1 then "Please provide one more value."
         else "") := by
  have hvals : ∀ (t : CalcState), (∀ id, t.readOnly id = s.readOnly id) →
      (∀ id, t.values id = s.values id) →
      ∀ id, (resetToInitialState t).values id = s.values id := by
    intro t htr htv id
    rw [resetToInitialState_values, htr id, htv id, hro id]
    exact clearedOnReset_false_of_not_invalid _ (value_not_invalid_of_validate id _ (hok id))
  rw [calc_undone_eq s hdone]
  have hfold := initial_fold_ok allFields { s with status := "" } [] (fun id _ => hok id)
  rw [hfold]
  simp only [List.nil_append]
  rw [if_neg (by simp)]
  have hc2 : (validEntries { s with status := "" } allFields).length ≠ 2 := hcount
  rw [if_pos hc2]
  by_cases hgt : 2 < (validEntries { s with status := "" } allFields).length
  · rw [if_pos hgt]
    refine ⟨rfl, rfl, hvals _ (fun id => rfl) (fun id => rfl), fun id => rfl, ?_⟩
    rw [if_pos (show 2 < suppliedCount s from hgt)]
    rfl
  · rw [if_neg hgt]
    by_cases h1 : (validEntries { s with status := "" } allFields).length = 1
    · rw [if_pos h1]
      refine ⟨rfl, rfl, hvals _ (fun id => rfl) (fun id => rfl), fun id => rfl, ?_⟩
      rw [if_neg (show ¬ 2 < suppliedCount s from hgt),
        if_pos (show suppliedCount s = 1 from h1)]
      rfl
    · rw [if_neg h1]
      refine ⟨rfl, rfl, hvals _ (fun id => rfl) (fun id => rfl), fun id => rfl, ?_⟩
      rw [if_neg (show ¬ 2 < suppliedCount s from hgt),
        if_neg (show ¬ suppliedCount s = 1 from h1)]
      rfl

/-- C7 witness: supplying only kw = 0 keeps the session unlocked, computes
nothing, and asks for one more value. -/
theorem unlocked_wrong_count_witness :
    (calculatePowerFactor (applyEdit initialState (.kw, .num 0))).initialCalculationDone =
        false ∧
      (calculatePowerFactor (applyEdit initialState (.kw, .num 0))).sourceFieldIds = [] ∧
      (∀ id, (calculatePowerFactor (applyEdit initialState (.kw, .num 0))).values id =
        (applyEdit initialState (.kw, .num 0)).values id) ∧
      (∀ id, (calculatePowerFactor (applyEdit initialState (.kw, .num 0))).readOnly id =
        false) ∧
      (calculatePowerFactor (applyEdit initialState (.kw, .num 0))).status =
        (if 2 < suppliedCount (applyEdit initialState (.kw, .num 0)) then
          "Please provide exactly two values."
         else if suppliedCount (applyEdit initialState (.kw, .num 0)) = 1 then
          "Please provide one more value."
         else "") :=
  unlocked_wrong_count (applyEdit initialState (.kw, .num 0)) rfl (fun _ => rfl)
    (fun id => by
      cases id
      · exact Or.inr ⟨0, by norm_num [applyEdit, initialState, Function.update, validateField]⟩
      · exact Or.inl rfl
      · exact Or.inl rfl
      · exact Or.inl rfl)
    (by norm_num [suppliedCount, validEntries, allFields, applyEdit, initialState,
      Function.update, validateField, List.filterMap_cons, List.filterMap_nil])

/-- The panel of the C8 example: kw = 500 and pf = 1 supplied. -/
def kwPf500state : CalcState :=
  { values := fun id => match id with
      | .kw => .num 500
      | .pf => .num 1
      | _ => .empty
    readOnly := fun _ => false
    status := ""
    initialCalculationDone := false
    sourceFieldIds := [] }

lemma resolveKwPf_500_1 : resolveKwPf 500 1 = .ok ⟨500, 500, 0, 1⟩ := by
  norm_num [resolveKwPf, Real.sqrt_zero]

lemma resolvePair_kw500_pf1 : resolvePair [(.kw, 500), (.pf, 1)] = .ok ⟨500, 500, 0, 1⟩ := by
  unfold resolvePair
  norm_num [jsRank, resolveKwPf_500_1]

lemma kwPf500_eval : (calculatePowerFactor kwPf500state).values .kvar = .num 0 := by
  unfold calculatePowerFactor calcCore kwPf500state
  simp only [allFields, List.foldl_cons, List.foldl_nil, initialCheck, validateField]
  norm_num
  unfold finishCalc
  rw [resolvePair_kw500_pf1]
  simp only [applyResults, markSourcesEditable, List.foldl_cons, List.foldl_nil]
  norm_num [List.contains, Function.update, displayValue, resultGet, snapTiny_0, toFixed3_0]

/-- C8: any value whose magnitude is below 1e-9 is displayed as exactly
.num 0 by the output-update path (displayValue is what every derived field
receives on success), and concretely the panel with kw = 500, pf = 1
reports kvar as exactly 0. -/
theorem display_snap_tiny (x : ℝ) (h : |x| < 1 / 10 ^ 9) :
    displayValue x = .num 0 ∧
      (calculatePowerFactor kwPf500state).values .kvar = .num 0 := by
  constructor
  · unfold displayValue snapTiny
    rw [if_pos h, toFixed3_0]
  · exact kwPf500_eval

/-- C8 witness at x = 1e-10. -/
theorem display_snap_tiny_witness :
    displayValue (1 / 10 ^ 10) = .num 0 ∧
      (calculatePowerFactor kwPf500state).values .kvar = .num 0 :=
  display_snap_tiny (1 / 10 ^ 10) (by
    rw [abs_of_nonneg (by norm_num : (0 : ℝ) ≤ 1 / 10 ^ 10)]
    norm_num)

lemma calcStateExt (a b : CalcState) (hv : ∀ id, a.values id = b.values id)
    (hr : ∀ id, a.readOnly id = b.readOnly id) (hs : a.status = b.status)
    (hd : a.initialCalculationDone = b.initialCalculationDone)
    (hsrc : a.sourceFieldIds = b.sourceFieldIds) : a = b := by
  cases a
  cases b
  simp only [CalcState.mk.injEq]
  exact ⟨funext hv, funext hr, hs, hd, hsrc⟩

lemma resolveKvaKw_0_0 : resolveKvaKw 0 0 = .ok ⟨0, 0, 0, 1⟩ := by
  norm_num [resolveKvaKw, Real.sqrt_zero]

lemma resolvePair_kw0_kva0 : resolvePair [(.kw, 0), (.kva, 0)] = .ok ⟨0, 0, 0, 1⟩ := by
  unfold resolvePair
  norm_num [jsRank, resolveKvaKw_0_0]

/-- State after typing kw = 0 and recomputing: still unlocked, asking for
one more value. -/
def c9s1 : CalcState :=
  { values := fun id => match id with
      | .kw => .num 0
      | _ => .empty
    readOnly := fun _ => false
    status := "Please provide one more value."
    initialCalculationDone := false
    sourceFieldIds := [] }

/-- State after then typing kva = 0 and recomputing: locked on kw and kva,
kvar and pf computed. -/
def c9s2 : CalcState :=
  { values := fun id => match id with
      | .kw => .num 0
      | .kva => .num 0
      | .kvar => .num 0
      | .pf => .num 1
    readOnly := fun id => match id with
      | .kvar => true
      | .pf => true
      | _ => false
    status := ""
    initialCalculationDone := true
    sourceFieldIds := [.kw, .kva] }

/-- State after then emptying kw and recomputing: the locked recompute
fails, resets, and asks for a valid number for KW. -/
def c9s3 : CalcState :=
  { values := fun id => match id with
      | .kva => .num 0
      | _ => .empty
    readOnly := fun _ => false
    status := "Please provide a valid number for KW."
    initialCalculationDone := false
    sourceFieldIds := [] }

/-- The same final field texts evaluated by one debounced recompute from
the pristine panel: still unlocked, asking for one more value. -/
def c9d : CalcState :=
  { values := fun id => match id with
      | .kva => .num 0
      | _ => .empty
    readOnly := fun _ => false
    status := "Please provide one more value."
    initialCalculationDone := false
    sourceFieldIds := [] }

lemma c9step1 : calculatePowerFactor (applyEdit initialState (.kw, .num 0)) = c9s1 := by
  refine calcStateExt _ _ ?_ ?_ ?_ ?_ ?_ <;>
    first
    | (intro id
       cases id <;>
         norm_num [calculatePowerFactor, calcCore, applyEdit, initialState, c9s1, allFields,
           initialCheck, validateField, Function.update, resetToInitialState, clearedOnReset])
    | norm_num [calculatePowerFactor, calcCore, applyEdit, initialState, c9s1, allFields,
        initialCheck, validateField, Function.update, resetToInitialState, clearedOnReset]

lemma c9step2 : calculatePowerFactor (applyEdit c9s1 (.kva, .num 0)) = c9s2 := by
  refine calcStateExt _ _ ?_ ?_ ?_ ?_ ?_ <;>
    first
    | (intro id
       cases id <;>
         norm_num [calculatePowerFactor, calcCore, applyEdit, c9s1, c9s2, allFields,
           initialCheck, validateField, Function.update, resetToInitialState, clearedOnReset,
           finishCalc, resolvePair_kw0_kva0, applyResults, markSourcesEditable, List.contains,
           displayValue, resultGet, snapTiny_0, snapTiny_1, toFixed3_0, toFixed3_1])
    | norm_num [calculatePowerFactor, calcCore, applyEdit, c9s1, c9s2, allFields,
        initialCheck, validateField, Function.update, resetToInitialState, clearedOnReset,
        finishCalc, resolvePair_kw0_kva0, applyResults, markSourcesEditable, List.contains,
        displayValue, resultGet, snapTiny_0, snapTiny_1, toFixed3_0, toFixed3_1]

lemma c9step3 : calculatePowerFactor (applyEdit c9s2 (.kw, .empty)) = c9s3 := by
  refine calcStateExt _ _ ?_ ?_ ?_ ?_ ?_ <;>
    first
    | (intro id
       cases id <;>
         norm_num [calculatePowerFactor, calcCore, applyEdit, c9s2, c9s3, allFields,
           recalcCheck, Function.update, resetToInitialState, clearedOnReset, upperName])
    | (norm_num [calculatePowerFactor, calcCore, applyEdit, c9s2, c9s3, allFields,
         recalcCheck, Function.update, resetToInitialState, clearedOnReset, upperName]
       rfl)
    | norm_num [calculatePowerFactor, calcCore, applyEdit, c9s2, c9s3, allFields,
        recalcCheck, Function.update, resetToInitialState, clearedOnReset, upperName]

lemma c9deb :
    runDebounced initialState [(.kw, .num 0), (.kva, .num 0), (.kw, .empty)] = c9d := by
  unfold runDebounced
  simp only [List.foldl_cons, List.foldl_nil]
  refine calcStateExt _ _ ?_ ?_ ?_ ?_ ?_ <;>
    first
    | (intro id
       cases id <;>
         norm_num [calculatePowerFactor, calcCore, applyEdit, initialState, c9d, allFields,
           initialCheck, validateField, Function.update, resetToInitialState, clearedOnReset])
    | norm_num [calculatePowerFactor, calcCore, applyEdit, initialState, c9d, allFields,
        initialCheck, validateField, Function.update, resetToInitialState, clearedOnReset]

lemma c9per :
    runPerKeystroke initialState [(.kw, .num 0), (.kva, .num 0), (.kw, .empty)] = c9s3 := by
  unfold runPerKeystroke
  simp only [List.foldl_cons, List.foldl_nil]
  rw [c9step1, c9step2, c9step3]

/-- C9 counterexample: the burst kw := 0, kva := 0, kw := empty reaches the
same final field texts under both schedules, yet the per-keystroke run (in
which the second recompute locked the session) ends with the locked-mode
rejection message while the debounced run ends with the unlocked
need-one-more message. -/
theorem debounce_schedule_cex :
    (∀ id,
      (runPerKeystroke initialState [(.kw, .num 0), (.kva, .num 0), (.kw, .empty)]).values id =
        (runDebounced initialState [(.kw, .num 0), (.kva, .num 0), (.kw, .empty)]).values id) ∧
      (runPerKeystroke initialState
          [(.kw, .num 0), (.kva, .num 0), (.kw, .empty)]).status ≠
        (runDebounced initialState [(.kw, .num 0), (.kva, .num 0), (.kw, .empty)]).status := by
  rw [c9per, c9deb]
  constructor
  · intro id
    cases id <;> rfl
  · decide

/-- C9 (amended): the recompute outcome is a function of the field texts
and the session components alone (read-only flags, lock flag, locked
sources): two states agreeing on those, whatever their status text or the
invocation schedule that produced them, recompute to identical states. -/
theorem recompute_deterministic (s1 s2 : CalcState) (hv : s1.values = s2.values)
    (hr : s1.readOnly = s2.readOnly)
    (hd : s1.initialCalculationDone = s2.initialCalculationDone)
    (hsrc : s1.sourceFieldIds = s2.sourceFieldIds) :
    calculatePowerFactor s1 = calculatePowerFactor s2 := by
  unfold calculatePowerFactor
  have h : ({ s1 with status := "" } : CalcState) = { s2 with status := "" } := by
    cases s1
    cases s2
    simp only at hv hr hd hsrc
    simp [hv, hr, hd, hsrc]
  rw [h]

/-- C9 witness: two states differing only in the status text recompute to
the same state. -/
theorem recompute_deterministic_witness :
    calculatePowerFactor { initialState with status := "stale" } =
      calculatePowerFactor initialState :=
  recompute_deterministic { initialState with status := "stale" } initialState rfl rfl rfl rfl

end PFCalc
